import Mathlib

/-!
# PodTopologySpread scheduler plugin

A shallow embedding of
`pkg/scheduler/framework/plugins/podtopologyspread/plugin.go`
and proofs of the properties its specification states about it.

Layout:

* the data model (labels, pods, nodes, constraints, cycle state, statuses);
* the plugin facade of `plugin.go` (`Name`, `Score`, `NormalizeScore`,
  `ScoreExtensions`, `New`), translated statement by statement.  The two
  functions of package `priorities` that it calls are arguments of the
  facade, so every facade theorem holds for any implementation of them;
* the collaborators that live outside `plugin.go`, written down from the
  specification and marked as such;
* the theorems.
-/

set_option autoImplicit false
set_option linter.dupNamespace false

namespace podtopologyspread

/-! ## Data model -/

/-- Labels of a node or a pod: key/value pairs, looked up by key. -/
abbrev Labels := List (String × String)

/-- A label matcher: the key/value pairs a label set has to carry. -/
structure LabelSelector where
  matchLabels : List (String × String)
  deriving DecidableEq, Repr

/-- Whether a label set satisfies a matcher. -/
def LabelSelector.Matches (s : LabelSelector) (labels : Labels) : Bool :=
  s.matchLabels.all (fun kv => labels.lookup kv.1 == some kv.2)

/-- The `whenUnsatisfiable` field of a topology spread constraint. -/
inductive UnsatisfiableConstraintAction where
  | DoNotSchedule
  | ScheduleAnyway
  deriving DecidableEq, Repr

/-- A topology spread constraint of a pod (`maxSkew` is a positive integer). -/
structure TopologySpreadConstraint where
  topologyKey : String
  maxSkew : Nat
  whenUnsatisfiable : UnsatisfiableConstraintAction
  selector : LabelSelector
  deriving DecidableEq, Repr

/-- A pod (`v1.Pod`): its labels and its topology spread constraints. -/
structure Pod where
  name : String
  labels : Labels
  topologySpreadConstraints : List TopologySpreadConstraint
  deriving DecidableEq, Repr

/-- A node (`v1.Node`): a named, labelled entity. -/
structure Node where
  name : String
  labels : Labels
  deriving DecidableEq, Repr

/-- A node of the snapshot together with the pods assigned to it. -/
structure NodeInfo where
  node : Node
  pods : List Pod
  deriving DecidableEq, Repr

/-- A Go `error` value.  `errorf` is an error built by `fmt.Errorf`; the
other constructors are the error classes the specification names. -/
inductive Error where
  | errorf (msg : String)
  | NodeLookupError (msg : String)
  | MetadataMissingError
  | MetadataError (msg : String)
  deriving DecidableEq, Repr

/-- The text of an error: the method `Error()` of the Go interface. -/
def Error.Error : Error → String
  | .errorf msg => msg
  | .NodeLookupError msg => msg
  | .MetadataMissingError => "spread metadata missing from cycle state"
  | .MetadataError msg => msg

/-- The snapshot lister held by the plugin (`schedulerlisters.SharedLister`):
`NodeInfos` enumerates the node infos of the frozen snapshot and `Get` is the
lookup `NodeInfos().Get(nodeName)`, which yields a node info or an error. -/
structure SharedLister where
  NodeInfos : List NodeInfo
  Get : String → Except Error NodeInfo

/-- The result codes of a `framework.Status` that this plugin deals in. -/
inductive Code where
  | Success
  | Error
  deriving DecidableEq, Repr

/-- A `framework.Status`: a result code and a human-readable message. -/
structure Status where
  code : Code
  message : String
  deriving DecidableEq, Repr

/-- The constructor `framework.NewStatus(code, message)`; the result is a
non-nil `*framework.Status`. -/
def NewStatus (code : Code) (message : String) : Option Status :=
  some { code := code, message := message }

/-- Whether a `*framework.Status` reports success: the nil status does, and so
does a status whose code is `Success`. -/
def IsSuccess : Option Status → Bool
  | none => true
  | some s => decide (s.code = Code.Success)

/-- One entry of a node score list (`framework.NodeScore`). -/
structure NodeScore where
  Name : String
  Score : Int
  deriving DecidableEq, Repr

/-- The list of node scores (`framework.NodeScoreList`). -/
abbrev NodeScoreList := List NodeScore

/-- The spread metadata of one scheduling cycle: the constraints of the pod
that take part in scoring. -/
structure SpreadMetadata where
  constraints : List TopologySpreadConstraint
  deriving DecidableEq, Repr

/-- A value cached in the cycle state: spread metadata, or a value of some
other shape. -/
inductive StateData where
  | spread (m : SpreadMetadata)
  | other (description : String)
  deriving DecidableEq, Repr

/-- The cycle-scoped state store (`framework.CycleState`): keys mapped to
cached values. -/
abbrev CycleState := List (String × StateData)

/-- The metadata handed to the priority functions: a Go `interface{}`, nil
when nothing was found. -/
abbrev Metadata := Option StateData

/-- The map scorer called by `Score`:
`priorities.CalculateEvenPodsSpreadPriorityMap(pod, meta, nodeInfo)`. -/
abbrev MapFunction := Pod → Metadata → NodeInfo → NodeScore × Option Error

/-- The reduce normalizer called by `NormalizeScore`:
`priorities.CalculateEvenPodsSpreadPriorityReduce(pod, meta, sharedLister, scores)`;
the score list it mutates in place is returned next to the error. -/
abbrev ReduceFunction :=
  Pod → Metadata → SharedLister → NodeScoreList → NodeScoreList × Option Error

/-! ## Collaborators of the facade outside `plugin.go` -/

/-- Modelled from the spec: the key under which the spread metadata builder
publishes its result in the cycle state (declared in package `migration`,
outside the sources at hand). -/
def PrioritiesStateKey : String := "Priorities"

/-- Modelled from the spec: `migration.PriorityMetadata` (outside the sources
at hand) is the `get(key) -> (value, found)` read of the cycle-scoped state
store; the value is nil when nothing is stored under the key. -/
def PriorityMetadata (state : CycleState) : Metadata :=
  state.lookup PrioritiesStateKey

/-- Modelled from the spec: `migration.ErrorToFrameworkStatus` (outside the
sources at hand) hands every failure on as a status object and swallows
nothing: no error is the nil (success) status, an error is a status of code
`Error` carrying the text of the error. -/
def ErrorToFrameworkStatus : Option Error → Option Status
  | none => none
  | some err => NewStatus Code.Error err.Error

/-! ## The plugin facade (`plugin.go`) -/

/-- The plugin.  `New` is its constructor and stores a lister only after
checking that it is not nil. -/
structure PodTopologySpread where
  sharedLister : SharedLister

/-- The constant `Name`: the name of the plugin in the registry and in
configurations. -/
def Name : String := "PodTopologySpread"

/-- The method `Name()`. -/
def PodTopologySpread.Name (_pl : PodTopologySpread) : String :=
  podtopologyspread.Name

/-- The message of the status that `Score` builds on a failed lookup:
`fmt.Sprintf("getting node %q from Snapshot: %v", nodeName, err)`, with `%q`
rendered by `String.quote` and `%v` by the text of the error. -/
def gettingNodeMessage (nodeName : String) (err : Error) : String :=
  "getting node " ++ nodeName.quote ++ " from Snapshot: " ++ err.Error

/-- The method `Score`, with the map scorer of package `priorities` as its
first argument. -/
def PodTopologySpread.Score (mapFunction : MapFunction) (pl : PodTopologySpread)
    (state : CycleState) (pod : Pod) (nodeName : String) : Int × Option Status :=
  match pl.sharedLister.Get nodeName with
  | .error err => (0, NewStatus Code.Error (gettingNodeMessage nodeName err))
  | .ok nodeInfo =>
    let meta := PriorityMetadata state
    let (s, err) := mapFunction pod meta nodeInfo
    (s.Score, ErrorToFrameworkStatus err)

/-- The method `NormalizeScore`, with the reduce normalizer of package
`priorities` as its first argument; the score list mutated in place is
returned next to the status. -/
def PodTopologySpread.NormalizeScore (reduceFunction : ReduceFunction)
    (pl : PodTopologySpread) (state : CycleState) (pod : Pod)
    (scores : NodeScoreList) : NodeScoreList × Option Status :=
  let meta := PriorityMetadata state
  let (scores, err) := reduceFunction pod meta pl.sharedLister scores
  (scores, ErrorToFrameworkStatus err)

/-- The interface `framework.ScoreExtensions`: its one method. -/
structure ScoreExtensions where
  NormalizeScore : CycleState → Pod → NodeScoreList → NodeScoreList × Option Status

/-- The plugin seen through the interface `framework.ScoreExtensions`: the
method set of the interface value is the plugin's own. -/
def PodTopologySpread.asScoreExtensions (reduceFunction : ReduceFunction)
    (pl : PodTopologySpread) : ScoreExtensions :=
  { NormalizeScore := pl.NormalizeScore reduceFunction }

/-- The method `ScoreExtensions`: `return pl`.  The interface value returned
is `none` when nil. -/
def PodTopologySpread.ScoreExtensions (reduceFunction : ReduceFunction)
    (pl : PodTopologySpread) : Option (PodTopologySpread × ScoreExtensions) :=
  some (pl, pl.asScoreExtensions reduceFunction)

/-- The framework handle passed to `New`: `SnapshotSharedLister()` is a
read-only accessor whose result may be nil. -/
structure FrameworkHandle where
  SnapshotSharedLister : Option SharedLister

/-- The plugin arguments (`*runtime.Unknown`), which `New` ignores. -/
structure RuntimeUnknown where
  raw : String
  deriving DecidableEq, Repr

/-- The function `New`. -/
def New (_args : Option RuntimeUnknown) (h : FrameworkHandle) :
    Option PodTopologySpread × Option Error :=
  match h.SnapshotSharedLister with
  | none => (none, some (Error.errorf "SnapshotSharedlister is nil"))
  | some sharedLister => (some { sharedLister := sharedLister }, none)

/-! ## The priority functions and the snapshot, from the specification -/

/-- Modelled from the spec: the Cluster Snapshot Accessor over a frozen list
of node infos (the lister implementation is outside the sources at hand);
`getNode(name)` yields the node info of that name and fails when the node is
absent. -/
def snapshotLister (nodeInfos : List NodeInfo) : SharedLister :=
  { NodeInfos := nodeInfos
    Get := fun nodeName =>
      match nodeInfos.find? (fun ni => ni.node.name == nodeName) with
      | some nodeInfo => .ok nodeInfo
      | none => .error (Error.NodeLookupError nodeName) }

/-- Modelled from the spec: the Spread Metadata Builder (outside the sources
at hand) keeps only the `ScheduleAnyway` constraints of the pod; constraints
with `DoNotSchedule` are dropped. -/
def scheduleAnywayConstraints (pod : Pod) : List TopologySpreadConstraint :=
  pod.topologySpreadConstraints.filter
    (fun c => decide (c.whenUnsatisfiable = UnsatisfiableConstraintAction.ScheduleAnyway))

/-- Modelled from the spec: the side effect of the Spread Metadata Builder
(outside the sources at hand), which writes the metadata of the pod into the
cycle-scoped state store before any node is scored. -/
def writeSpreadMetadata (pod : Pod) (state : CycleState) : CycleState :=
  (PrioritiesStateKey, StateData.spread { constraints := scheduleAnywayConstraints pod }) :: state

/-- Modelled from the spec: the number of pods assigned to the nodes of the
snapshot that share the domain `(topologyKey, value)` and whose labels match
the selector of the constraint (§4.2 step 3; the counting code is outside the
sources at hand). -/
def matchingPodCount (snapshot : List NodeInfo) (c : TopologySpreadConstraint)
    (value : String) : Nat :=
  ((snapshot.filter (fun ni => ni.node.labels.lookup c.topologyKey == some value)).map
    (fun ni => (ni.pods.filter (fun p => c.selector.Matches p.labels)).length)).sum

/-- Modelled from the spec: what one constraint contributes to the raw score
of a node (§4.2 step 3): zero when the node lacks the topology key, else the
negative of the count of matching pods in the domain of the node. -/
def constraintContribution (snapshot : List NodeInfo) (c : TopologySpreadConstraint)
    (node : Node) : Int :=
  match node.labels.lookup c.topologyKey with
  | none => 0
  | some value => -(matchingPodCount snapshot c value : Int)

/-- Modelled from the spec: the raw score of a node (§4.2 step 4), the sum of
the contributions of all constraints of the metadata. -/
def rawScore (snapshot : List NodeInfo) (m : SpreadMetadata) (node : Node) : Int :=
  (m.constraints.map (fun c => constraintContribution snapshot c node)).sum

/-- Modelled from the spec: the Per-Node Map Scorer
`priorities.CalculateEvenPodsSpreadPriorityMap` (outside the sources at hand),
§4.2 steps 2 to 4.  The snapshot it counts over is its first argument.
Metadata that is absent or of another shape is a `MetadataMissingError`. -/
def CalculateEvenPodsSpreadPriorityMap (snapshot : List NodeInfo) : MapFunction :=
  fun _pod meta nodeInfo =>
    match meta with
    | some (StateData.spread m) =>
      ({ Name := nodeInfo.node.name, Score := rawScore snapshot m nodeInfo.node }, none)
    | _ => ({ Name := "", Score := 0 }, some Error.MetadataMissingError)

/-- Modelled from the spec: `round(p / q)` for `0 ≤ p` and `0 < q`, to the
nearest integer with halves rounded up. -/
def roundDiv (p q : Int) : Int :=
  (2 * p + q) / (2 * q)

/-- Modelled from the spec: `minRaw`, the least score of a non-empty list. -/
def minRaw (first : NodeScore) (rest : NodeScoreList) : Int :=
  rest.foldl (fun m e => min m e.Score) first.Score

/-- Modelled from the spec: `maxRaw`, the greatest score of a non-empty list. -/
def maxRaw (first : NodeScore) (rest : NodeScoreList) : Int :=
  rest.foldl (fun m e => max m e.Score) first.Score

/-- Modelled from the spec: the min-max rescale of §4.3.  When all raw scores
are equal every node gets `MaxScore`; otherwise a node gets
`round((raw - minRaw) * MaxScore / (maxRaw - minRaw))`, computed exactly. -/
def normalize (MaxScore : Nat) : NodeScoreList → NodeScoreList
  | [] => []
  | first :: rest =>
    let lo := minRaw first rest
    let hi := maxRaw first rest
    if lo = hi then
      (first :: rest).map (fun e => { e with Score := (MaxScore : Int) })
    else
      (first :: rest).map
        (fun e => { e with Score := roundDiv ((e.Score - lo) * (MaxScore : Int)) (hi - lo) })

/-- Modelled from the spec: the Cross-Node Reduce Normalizer
`priorities.CalculateEvenPodsSpreadPriorityReduce` (outside the sources at
hand), §4.3, with the framework constant `MaxScore` as its first argument.
It fails with `MetadataMissingError` under the same condition as the map
scorer and leaves the list alone then. -/
def CalculateEvenPodsSpreadPriorityReduce (MaxScore : Nat) : ReduceFunction :=
  fun _pod meta _sharedLister scores =>
    match meta with
    | some (StateData.spread _) => (normalize MaxScore scores, none)
    | _ => (scores, some Error.MetadataMissingError)

/-! ## Concrete inputs -/

/-- The selector `app=foo` of the scenario of the specification. -/
def appFoo : LabelSelector := { matchLabels := [("app", "foo")] }

/-- The constraint of the scenario: `ScheduleAnyway` on key `zone`. -/
def zoneConstraint : TopologySpreadConstraint :=
  { topologyKey := "zone", maxSkew := 1,
    whenUnsatisfiable := UnsatisfiableConstraintAction.ScheduleAnyway, selector := appFoo }

/-- The pod `P` of the scenario. -/
def podP : Pod :=
  { name := "P", labels := [("app", "foo")], topologySpreadConstraints := [zoneConstraint] }

/-- A pod labelled `app=foo` that is already assigned to a node. -/
def fooPod (name : String) : Pod :=
  { name := name, labels := [("app", "foo")], topologySpreadConstraints := [] }

/-- The cluster of the scenario: `N1` in zone `a` with three matching pods,
`N2` in zone `b` with one, `N3` in zone `c` with none. -/
def scenarioCluster : List NodeInfo :=
  [ { node := { name := "N1", labels := [("zone", "a")] },
      pods := [fooPod "p1", fooPod "p2", fooPod "p3"] },
    { node := { name := "N2", labels := [("zone", "b")] }, pods := [fooPod "p4"] },
    { node := { name := "N3", labels := [("zone", "c")] }, pods := [] } ]

/-- The plugin over the cluster of the scenario. -/
def scenarioPlugin : PodTopologySpread :=
  { sharedLister := snapshotLister scenarioCluster }

/-- The cycle state of the scenario after the builder ran for `P`. -/
def scenarioState : CycleState := writeSpreadMetadata podP []

/-- A map scorer that always fails, with a score that is not zero. -/
def failingMap : MapFunction :=
  fun _ _ nodeInfo => ({ Name := nodeInfo.node.name, Score := 7 }, some (Error.errorf "boom"))

/-! ## Lemmas about the normalizer -/

/-- Folding `min` over a list yields a lower bound of the start value and of
every score in the list. -/
theorem foldl_min_le (rest : NodeScoreList) (start : Int) :
    rest.foldl (fun m e => min m e.Score) start ≤ start ∧
      ∀ e ∈ rest, rest.foldl (fun m e => min m e.Score) start ≤ e.Score := by
  induction rest generalizing start with
  | nil => simp
  | cons x xs ih =>
    obtain ⟨h1, h2⟩ := ih (min start x.Score)
    refine ⟨le_trans h1 (min_le_left _ _), ?_⟩
    intro e he
    rcases List.mem_cons.mp he with rfl | hmem
    · exact le_trans h1 (min_le_right _ _)
    · exact h2 e hmem

/-- Folding `max` over a list yields an upper bound of the start value and of
every score in the list. -/
theorem le_foldl_max (rest : NodeScoreList) (start : Int) :
    start ≤ rest.foldl (fun m e => max m e.Score) start ∧
      ∀ e ∈ rest, e.Score ≤ rest.foldl (fun m e => max m e.Score) start := by
  induction rest generalizing start with
  | nil => simp
  | cons x xs ih =>
    obtain ⟨h1, h2⟩ := ih (max start x.Score)
    refine ⟨le_trans (le_max_left _ _) h1, ?_⟩
    intro e he
    rcases List.mem_cons.mp he with rfl | hmem
    · exact le_trans (le_max_right _ _) h1
    · exact h2 e hmem

/-- The entry `minRaw` is below every score of the list. -/
theorem minRaw_le (first : NodeScore) (rest : NodeScoreList) :
    ∀ e ∈ first :: rest, minRaw first rest ≤ e.Score := by
  intro e he
  rcases List.mem_cons.mp he with rfl | hmem
  · exact (foldl_min_le rest e.Score).1
  · exact (foldl_min_le rest first.Score).2 e hmem

/-- The entry `maxRaw` is above every score of the list. -/
theorem le_maxRaw (first : NodeScore) (rest : NodeScoreList) :
    ∀ e ∈ first :: rest, e.Score ≤ maxRaw first rest := by
  intro e he
  rcases List.mem_cons.mp he with rfl | hmem
  · exact (le_foldl_max rest e.Score).1
  · exact (le_foldl_max rest first.Score).2 e hmem

/-- Rounding `x * M / d` for `0 ≤ x ≤ d` and `0 < d` stays within `0..M`. -/
theorem roundDiv_range (x d : Int) (M : Nat) (hx : 0 ≤ x) (hxd : x ≤ d) (hd : 0 < d) :
    0 ≤ roundDiv (x * (M : Int)) d ∧ roundDiv (x * (M : Int)) d ≤ (M : Int) := by
  have hM : (0 : Int) ≤ (M : Int) := Int.ofNat_nonneg M
  have hxM : 0 ≤ x * (M : Int) := mul_nonneg hx hM
  have hle : x * (M : Int) ≤ d * (M : Int) := mul_le_mul_of_nonneg_right hxd hM
  unfold roundDiv
  constructor
  · exact Int.ediv_nonneg (by linarith) (by linarith)
  · have hlt : (2 * (x * (M : Int)) + d) / (2 * d) < (M : Int) + 1 := by
      apply Int.ediv_lt_of_lt_mul (by linarith)
      nlinarith
    omega

/-- Every score that `normalize` writes lies within `0..MaxScore`. -/
theorem normalize_range (MaxScore : Nat) (scores : NodeScoreList) :
    ∀ e ∈ normalize MaxScore scores, 0 ≤ e.Score ∧ e.Score ≤ (MaxScore : Int) := by
  cases scores with
  | nil => simp [normalize]
  | cons first rest =>
    intro e he
    by_cases heq : minRaw first rest = maxRaw first rest
    · simp only [normalize, heq, if_true, List.mem_map] at he
      obtain ⟨a, _, rfl⟩ := he
      exact ⟨Int.ofNat_nonneg MaxScore, le_refl _⟩
    · simp only [normalize, heq, if_false, List.mem_map] at he
      obtain ⟨a, ha, rfl⟩ := he
      have hlo := minRaw_le first rest a ha
      have hhi := le_maxRaw first rest a ha
      have hd : 0 < maxRaw first rest - minRaw first rest := by
        have := le_trans hlo hhi
        omega
      exact roundDiv_range (a.Score - minRaw first rest) (maxRaw first rest - minRaw first rest)
        MaxScore (by omega) (by omega) hd

/-! ## Theorems about the facade -/

/-- C9: for every plugin instance, whatever lister it holds, `Name()` returns
the string "PodTopologySpread", which is the exported constant `Name`. -/
theorem Name_constant (pl : PodTopologySpread) :
    pl.Name = "PodTopologySpread" ∧ pl.Name = podtopologyspread.Name :=
  ⟨rfl, rfl⟩

/-- C8: for every plugin instance, `ScoreExtensions` returns a non-nil
interface value that holds that same instance, and the `NormalizeScore` seen
through it is the plugin's own `NormalizeScore`. -/
theorem ScoreExtensions_self (reduceFunction : ReduceFunction) (pl : PodTopologySpread) :
    ∃ ext : ScoreExtensions,
      pl.ScoreExtensions reduceFunction = some (pl, ext) ∧
      ext.NormalizeScore = pl.NormalizeScore reduceFunction :=
  ⟨pl.asScoreExtensions reduceFunction, rfl, rfl⟩

/-- C1: `New` returns an error and no plugin exactly when the handle's
`SnapshotSharedLister()` is nil; when the lister is not nil it returns a
plugin (holding that lister) and a nil error. -/
theorem New_error_iff_nil_lister (args : Option RuntimeUnknown) (h : FrameworkHandle) :
    (((New args h).2 ≠ none ∧ (New args h).1 = none) ↔ h.SnapshotSharedLister = none) ∧
    (∀ l : SharedLister, h.SnapshotSharedLister = some l →
      New args h = (some { sharedLister := l }, none)) := by
  cases hl : h.SnapshotSharedLister with
  | none => simp [New, hl]
  | some l => simp [New, hl]

/-- Witness of C1: over the scenario cluster's lister `New` yields the plugin. -/
theorem New_error_iff_nil_lister_witness :
    New none { SnapshotSharedLister := some (snapshotLister scenarioCluster) } =
      (some { sharedLister := snapshotLister scenarioCluster }, none) :=
  (New_error_iff_nil_lister none
    { SnapshotSharedLister := some (snapshotLister scenarioCluster) }).2
    (snapshotLister scenarioCluster) rfl

/-- C2: when the lister's lookup of `nodeName` returns an error, `Score`
returns the score 0 and a status of code `Error`, which is not a success, and
the result is the same whatever the map scorer is: it is not consulted. -/
theorem Score_lookup_error (mapFunction : MapFunction) (pl : PodTopologySpread)
    (state : CycleState) (pod : Pod) (nodeName : String) (err : Error)
    (hget : pl.sharedLister.Get nodeName = Except.error err) :
    pl.Score mapFunction state pod nodeName =
        (0, some { code := Code.Error, message := gettingNodeMessage nodeName err }) ∧
      IsSuccess (pl.Score mapFunction state pod nodeName).2 = false ∧
      ∀ other : MapFunction,
        pl.Score other state pod nodeName = pl.Score mapFunction state pod nodeName := by
  simp [PodTopologySpread.Score, hget, NewStatus, IsSuccess]

/-- Witness of C2: node `N9` is not in the scenario cluster; a map scorer
that always fails and the map scorer of the specification give the same
result there. -/
theorem Score_lookup_error_witness :
    scenarioPlugin.Score failingMap scenarioState podP "N9" =
        (0, some { code := Code.Error,
                   message := gettingNodeMessage "N9" (Error.NodeLookupError "N9") }) ∧
      IsSuccess (scenarioPlugin.Score failingMap scenarioState podP "N9").2 = false ∧
      scenarioPlugin.Score (CalculateEvenPodsSpreadPriorityMap scenarioCluster)
          scenarioState podP "N9" =
        scenarioPlugin.Score failingMap scenarioState podP "N9" :=
  have h := Score_lookup_error failingMap scenarioPlugin scenarioState podP "N9"
    (Error.NodeLookupError "N9") rfl
  ⟨h.1, h.2.1, h.2.2 (CalculateEvenPodsSpreadPriorityMap scenarioCluster)⟩

/-- C10: the score `Score` returns is the `Score` field of the map scorer's
result, unchanged, whenever the node lookup succeeds (whether or not the map
scorer returns an error); it is 0 on a failed lookup. -/
theorem Score_value (mapFunction : MapFunction) (pl : PodTopologySpread)
    (state : CycleState) (pod : Pod) (nodeName : String) :
    (pl.Score mapFunction state pod nodeName).1 =
      match pl.sharedLister.Get nodeName with
      | Except.ok nodeInfo => (mapFunction pod (PriorityMetadata state) nodeInfo).1.Score
      | Except.error _ => 0 := by
  cases hget : pl.sharedLister.Get nodeName <;> simp [PodTopologySpread.Score, hget]

/-- C3 (with the conversion of errors to statuses as the specification
describes it): `Score` returns a success status exactly when the node lookup
succeeds and the map scorer, applied to the pod, the metadata read from the
cycle state and the node info found, returns no error. -/
theorem Score_success_iff (mapFunction : MapFunction) (pl : PodTopologySpread)
    (state : CycleState) (pod : Pod) (nodeName : String) :
    IsSuccess (pl.Score mapFunction state pod nodeName).2 = true ↔
      ∃ nodeInfo : NodeInfo, pl.sharedLister.Get nodeName = Except.ok nodeInfo ∧
        (mapFunction pod (PriorityMetadata state) nodeInfo).2 = none := by
  cases hget : pl.sharedLister.Get nodeName with
  | error err => simp [PodTopologySpread.Score, hget, NewStatus, IsSuccess]
  | ok nodeInfo =>
    cases herr : (mapFunction pod (PriorityMetadata state) nodeInfo).2 with
    | none => simp [PodTopologySpread.Score, hget, herr, ErrorToFrameworkStatus, IsSuccess]
    | some e =>
      simp [PodTopologySpread.Score, hget, herr, ErrorToFrameworkStatus, NewStatus, IsSuccess]

/-- C7 (with the conversion of errors to statuses as the specification
describes it): `NormalizeScore` returns a success status exactly when the
reduce normalizer, applied to the pod, the metadata read from the cycle state,
the plugin's lister and the score list, returns no error. -/
theorem NormalizeScore_success_iff (reduceFunction : ReduceFunction)
    (pl : PodTopologySpread) (state : CycleState) (pod : Pod) (scores : NodeScoreList) :
    IsSuccess (pl.NormalizeScore reduceFunction state pod scores).2 = true ↔
      (reduceFunction pod (PriorityMetadata state) pl.sharedLister scores).2 = none := by
  cases herr : (reduceFunction pod (PriorityMetadata state) pl.sharedLister scores).2 with
  | none => simp [PodTopologySpread.NormalizeScore, herr, ErrorToFrameworkStatus, IsSuccess]
  | some e =>
    simp [PodTopologySpread.NormalizeScore, herr, ErrorToFrameworkStatus, NewStatus, IsSuccess]

/-! ## Theorems about the facade over the priority functions of the specification -/

/-- C4 (with the map scorer and the state read as the specification describes
them): when `nodeName` resolves to a node and the cycle state holds no spread
metadata, or a value of another shape, `Score` returns the status of a
`MetadataMissingError`, which is not a success. -/
theorem Score_metadata_missing (snapshot : List NodeInfo) (pl : PodTopologySpread)
    (state : CycleState) (pod : Pod) (nodeName : String) (nodeInfo : NodeInfo)
    (hget : pl.sharedLister.Get nodeName = Except.ok nodeInfo)
    (hmeta : ∀ m : SpreadMetadata, PriorityMetadata state ≠ some (StateData.spread m)) :
    (pl.Score (CalculateEvenPodsSpreadPriorityMap snapshot) state pod nodeName).2 =
        ErrorToFrameworkStatus (some Error.MetadataMissingError) ∧
      IsSuccess (pl.Score (CalculateEvenPodsSpreadPriorityMap snapshot) state pod nodeName).2 =
        false := by
  have hmap : CalculateEvenPodsSpreadPriorityMap snapshot pod (PriorityMetadata state) nodeInfo =
      ({ Name := "", Score := 0 }, some Error.MetadataMissingError) := by
    cases hm : PriorityMetadata state with
    | none => rfl
    | some d =>
      cases d with
      | spread m => exact absurd hm (hmeta m)
      | other description => rfl
  simp [PodTopologySpread.Score, hget, hmap, ErrorToFrameworkStatus, NewStatus, IsSuccess]

/-- Witness of C4: node `N1` of the scenario cluster, scored against a cycle
state that holds a value of another shape under the metadata key. -/
theorem Score_metadata_missing_witness :
    (scenarioPlugin.Score (CalculateEvenPodsSpreadPriorityMap scenarioCluster)
        [(PrioritiesStateKey, StateData.other "stale")] podP "N1").2 =
        ErrorToFrameworkStatus (some Error.MetadataMissingError) ∧
      IsSuccess (scenarioPlugin.Score (CalculateEvenPodsSpreadPriorityMap scenarioCluster)
        [(PrioritiesStateKey, StateData.other "stale")] podP "N1").2 = false :=
  Score_metadata_missing scenarioCluster scenarioPlugin
    [(PrioritiesStateKey, StateData.other "stale")] podP "N1"
    { node := { name := "N1", labels := [("zone", "a")] },
      pods := [fooPod "p1", fooPod "p2", fooPod "p3"] }
    rfl (by intro m h; cases h)

/-- C5 (with the reduce normalizer as the specification describes it): after
`NormalizeScore` returns a success status, every score of the list lies within
`0..MaxScore`. -/
theorem NormalizeScore_range (MaxScore : Nat) (pl : PodTopologySpread) (state : CycleState)
    (pod : Pod) (scores : NodeScoreList)
    (hok : IsSuccess (pl.NormalizeScore (CalculateEvenPodsSpreadPriorityReduce MaxScore)
      state pod scores).2 = true) :
    ∀ e ∈ (pl.NormalizeScore (CalculateEvenPodsSpreadPriorityReduce MaxScore)
        state pod scores).1,
      0 ≤ e.Score ∧ e.Score ≤ (MaxScore : Int) := by
  cases hm : PriorityMetadata state with
  | none =>
    simp [PodTopologySpread.NormalizeScore, CalculateEvenPodsSpreadPriorityReduce, hm,
      ErrorToFrameworkStatus, NewStatus, IsSuccess] at hok
  | some d =>
    cases d with
    | other description =>
      simp [PodTopologySpread.NormalizeScore, CalculateEvenPodsSpreadPriorityReduce, hm,
        ErrorToFrameworkStatus, NewStatus, IsSuccess] at hok
    | spread m =>
      have hres : (pl.NormalizeScore (CalculateEvenPodsSpreadPriorityReduce MaxScore)
          state pod scores).1 = normalize MaxScore scores := by
        simp [PodTopologySpread.NormalizeScore, CalculateEvenPodsSpreadPriorityReduce, hm]
      rw [hres]
      exact normalize_range MaxScore scores

/-- Witness of C5: the raw scores of the scenario, normalized with
`MaxScore = 100`; the entry of `N2` becomes 67. -/
theorem NormalizeScore_range_witness :
    IsSuccess (scenarioPlugin.NormalizeScore (CalculateEvenPodsSpreadPriorityReduce 100)
        scenarioState podP
        [{ Name := "N1", Score := -3 }, { Name := "N2", Score := -1 },
         { Name := "N3", Score := 0 }]).2 = true ∧
      (0 ≤ ({ Name := "N2", Score := 67 } : NodeScore).Score ∧
        ({ Name := "N2", Score := 67 } : NodeScore).Score ≤ ((100 : Nat) : Int)) :=
  ⟨rfl, NormalizeScore_range 100 scenarioPlugin scenarioState podP
    [{ Name := "N1", Score := -3 }, { Name := "N2", Score := -1 },
     { Name := "N3", Score := 0 }] rfl { Name := "N2", Score := 67 } (by decide)⟩

/-- C6 (with the map scorer and the builder as the specification describes
them): for a pod with a single `ScheduleAnyway` constraint whose metadata the
builder has published, and a node that carries the constraint's topology key,
`Score` returns the negative of the number of matching pods assigned to the
nodes of the snapshot in the same domain, with a success status; on the
cluster `N1` (zone a, three matching pods), `N2` (zone b, one), `N3` (zone c,
none) the raw scores are -3, -1 and 0. -/
theorem Score_single_constraint :
    (∀ (pl : PodTopologySpread) (state : CycleState) (pod : Pod) (nodeName : String)
        (nodeInfo : NodeInfo) (c : TopologySpreadConstraint) (value : String),
        pl.sharedLister.Get nodeName = Except.ok nodeInfo →
        PriorityMetadata state =
          some (StateData.spread { constraints := scheduleAnywayConstraints pod }) →
        scheduleAnywayConstraints pod = [c] →
        nodeInfo.node.labels.lookup c.topologyKey = some value →
        pl.Score (CalculateEvenPodsSpreadPriorityMap pl.sharedLister.NodeInfos)
            state pod nodeName =
          (-(matchingPodCount pl.sharedLister.NodeInfos c value : Int), none)) ∧
      scenarioPlugin.Score (CalculateEvenPodsSpreadPriorityMap scenarioCluster)
          scenarioState podP "N1" = (-3, none) ∧
      scenarioPlugin.Score (CalculateEvenPodsSpreadPriorityMap scenarioCluster)
          scenarioState podP "N2" = (-1, none) ∧
      scenarioPlugin.Score (CalculateEvenPodsSpreadPriorityMap scenarioCluster)
          scenarioState podP "N3" = (0, none) := by
  refine ⟨?_, rfl, rfl, rfl⟩
  intro pl state pod nodeName nodeInfo c value hget hmeta hsingle hkey
  simp [PodTopologySpread.Score, hget, hmeta, hsingle, CalculateEvenPodsSpreadPriorityMap,
    rawScore, constraintContribution, hkey, ErrorToFrameworkStatus]

/-- Witness of C6: node `N1` of the scenario cluster, in zone `a`. -/
theorem Score_single_constraint_witness :
    scenarioPlugin.Score (CalculateEvenPodsSpreadPriorityMap scenarioCluster)
        scenarioState podP "N1" =
      (-(matchingPodCount scenarioCluster zoneConstraint "a" : Int), none) ∧
    matchingPodCount scenarioCluster zoneConstraint "a" = 3 :=
  ⟨Score_single_constraint.1 scenarioPlugin scenarioState podP "N1"
    { node := { name := "N1", labels := [("zone", "a")] },
      pods := [fooPod "p1", fooPod "p2", fooPod "p3"] }
    zoneConstraint "a" rfl rfl rfl rfl, rfl⟩

end podtopologyspread
